import Mathlib

/-
Verification of `cloud/services/bastionhosts/bastionhosts.go` (cluster-api-provider-azure).

The file is modelled as a shallow embedding: the external cloud clients
(subnets, public IPs, bastion hosts) are oracles indexed by the number of
prior calls to the same method, and every client call appends an event to an
explicit trace.  `Reconcile` and `Delete` are translated line by line from
the Go source; the payload-building code (`createBastionPublicIP`, the
bastion-host upsert literal) is translated into explicit payload
constructors.
-/

namespace BastionHosts

/-- BastionSpec is the desired-state descriptor handed out by the scope
provider (`azure.BastionSpec`): names of the bastion host, vnet, subnet and
public IP. -/
structure BastionSpec where
  Name : String
  VNetName : String
  SubnetName : String
  PublicIPName : String
deriving DecidableEq

/-- Subnet as consumed by this file: only its identifier is read
(`subnet.ID`, a `*string` in the Go SDK, hence `Option String`). -/
structure Subnet where
  ID : Option String
deriving DecidableEq

/-- SKU names of the Go SDK's `network.PublicIPAddressSkuName`. -/
inductive PublicIPAddressSkuName where
  | Basic
  | Standard
deriving DecidableEq

/-- SKU record of `network.PublicIPAddressSku`. -/
structure PublicIPAddressSku where
  Name : PublicIPAddressSkuName
deriving DecidableEq

/-- IP versions of `network.IPVersion`. -/
inductive IPVersion where
  | IPv4
  | IPv6
deriving DecidableEq

/-- Allocation methods of `network.IPAllocationMethod` (`network.Static`,
`network.Dynamic`). -/
inductive IPAllocationMethod where
  | Static
  | Dynamic
deriving DecidableEq

/-- DNS settings of `network.PublicIPAddressDNSSettings`. -/
structure PublicIPAddressDNSSettings where
  DomainNameLabel : Option String
deriving DecidableEq

/-- Properties of `network.PublicIPAddressPropertiesFormat`, restricted to
the fields this file writes or reads. -/
structure PublicIPAddressPropertiesFormat where
  PublicIPAddressVersion : IPVersion
  PublicIPAllocationMethod : IPAllocationMethod
  DNSSettings : Option PublicIPAddressDNSSettings
deriving DecidableEq

/-- Public IP record of `network.PublicIPAddress`, restricted to the fields
this file writes or reads (Go pointers become `Option`). -/
structure PublicIPAddress where
  Sku : Option PublicIPAddressSku
  Name : Option String
  Location : Option String
  ID : Option String
  PropertiesFormat : Option PublicIPAddressPropertiesFormat
deriving DecidableEq

/-- Reference by identifier, `network.SubResource`. -/
structure SubResource where
  ID : Option String
deriving DecidableEq

/-- Properties of one bastion-host IP configuration
(`network.BastionHostIPConfigurationPropertiesFormat`). -/
structure BastionHostIPConfigurationPropertiesFormat where
  Subnet : Option SubResource
  PublicIPAddress : Option SubResource
  PrivateIPAllocationMethod : IPAllocationMethod
deriving DecidableEq

/-- One bastion-host IP configuration
(`network.BastionHostIPConfiguration`). -/
structure BastionHostIPConfiguration where
  Name : Option String
  PropertiesFormat : Option BastionHostIPConfigurationPropertiesFormat
deriving DecidableEq

/-- Modelled from the spec: the tag builder (`infrav1.Build` composed with
`converters.TagsToMap`) lives outside `src/`; per the spec it produces the
ownership tag mapping from cluster name, lifecycle, resource name and role,
so the tags attached to a bastion host are modelled as that parameter
record. -/
structure BuildParams where
  ClusterName : String
  Lifecycle : String
  Name : Option String
  Role : Option String
deriving DecidableEq

/-- Lifecycle constant `infrav1.ResourceLifecycleOwned`. -/
def ResourceLifecycleOwned : String := "owned"

/-- Properties of `network.BastionHostPropertiesFormat`, restricted to the
fields this file writes. -/
structure BastionHostPropertiesFormat where
  DNSName : Option String
  IPConfigurations : Option (List BastionHostIPConfiguration)
deriving DecidableEq

/-- Bastion-host record of `network.BastionHost`, restricted to the fields
this file writes. -/
structure BastionHost where
  Name : Option String
  Location : Option String
  Tags : BuildParams
  PropertiesFormat : Option BastionHostPropertiesFormat
deriving DecidableEq

/-- Modelled from the spec: errors returned by the cloud clients, together
with the shared not-found classifier `azure.ResourceNotFound` (defined
outside `src/`).  Per the spec the classifier is a predicate distinguishing
"resource absent" from other failures, so an error carries that
classification as its constructor tag, plus a message. -/
inductive AzureError where
  | notFound (msg : String)
  | other (msg : String)
deriving DecidableEq

/-- Modelled from the spec: the not-found classifier
`azure.ResourceNotFound(err)`. -/
def ResourceNotFound : AzureError → Bool
  | AzureError.notFound _ => true
  | AzureError.other _ => false

/-- Message of the underlying client error. -/
def AzureError.message : AzureError → String
  | AzureError.notFound m => m
  | AzureError.other m => m

/-- Result of `errors.Wrap(err, msg)` / `errors.Wrapf`: a context message
around the preserved cause. -/
structure WrappedError where
  msg : String
  cause : AzureError
deriving DecidableEq

/-- The `Error()` string of a `pkg/errors` wrapped error:
`msg ++ ": " ++ cause`. -/
def WrappedError.errorString (w : WrappedError) : String :=
  w.msg ++ ": " ++ w.cause.message

/-- The scope provider: resource group, location, cluster name and the
ordered batch of bastion specs (`s.Scope`). -/
structure Scope where
  ResourceGroup : String
  Location : String
  ClusterName : String
  BastionSpecs : List BastionSpec

/-- One observable client call, with the arguments the Go code passes. -/
inductive CallEvent where
  | subnetsGet (rg vnet subnet : String)
  | publicIPsGet (rg name : String)
  | publicIPsCreateOrUpdate (rg name : String) (payload : PublicIPAddress)
  | bastionCreateOrUpdate (rg name : String) (payload : BastionHost)
  | bastionDelete (rg name : String)
deriving DecidableEq

/-- The injected clients.  Each method is an oracle: its first argument is
the number of calls already made to that same method, so a re-fetch after a
create may observe a different world than the first lookup. -/
structure Clients where
  subnetsGet : Nat → String → String → String → Except AzureError Subnet
  publicIPsGet : Nat → String → String → Except AzureError PublicIPAddress
  publicIPsCreateOrUpdate : Nat → String → String → PublicIPAddress → Option AzureError
  bastionCreateOrUpdate : Nat → String → String → BastionHost → Option AzureError
  bastionDelete : Nat → String → String → Option AzureError

/-- Number of subnet `Get` calls in a trace. -/
def countSubnetsGet (tr : List CallEvent) : Nat :=
  tr.countP fun e =>
    match e with
    | CallEvent.subnetsGet _ _ _ => true
    | _ => false

/-- Number of public-IP `Get` calls in a trace. -/
def countPublicIPsGet (tr : List CallEvent) : Nat :=
  tr.countP fun e =>
    match e with
    | CallEvent.publicIPsGet _ _ => true
    | _ => false

/-- Number of public-IP `CreateOrUpdate` calls in a trace. -/
def countPublicIPsCreateOrUpdate (tr : List CallEvent) : Nat :=
  tr.countP fun e =>
    match e with
    | CallEvent.publicIPsCreateOrUpdate _ _ _ => true
    | _ => false

/-- Number of bastion-host `CreateOrUpdate` calls in a trace. -/
def countBastionCreateOrUpdate (tr : List CallEvent) : Nat :=
  tr.countP fun e =>
    match e with
    | CallEvent.bastionCreateOrUpdate _ _ _ => true
    | _ => false

/-- Number of bastion-host `Delete` calls in a trace. -/
def countBastionDelete (tr : List CallEvent) : Nat :=
  tr.countP fun e =>
    match e with
    | CallEvent.bastionDelete _ _ => true
    | _ => false

/-- Whether an event is a bastion-host `Delete` call. -/
def isBastionDeleteEvent : CallEvent → Bool
  | CallEvent.bastionDelete _ _ => true
  | _ => false

/-- The public-IP payload built inside `createBastionPublicIP`: standard
SKU, scope location, IPv4, static allocation, DNS domain-name label
`strings.ToLower(ipName)`. -/
def bastionPublicIPPayload (s : Scope) (ipName : String) : PublicIPAddress :=
  { Sku := some { Name := PublicIPAddressSkuName.Standard }
    Name := some ipName
    Location := some s.Location
    ID := none
    PropertiesFormat := some
      { PublicIPAddressVersion := IPVersion.IPv4
        PublicIPAllocationMethod := IPAllocationMethod.Static
        DNSSettings := some { DomainNameLabel := some ipName.toLower } } }

/-- The bastion-host payload built inside `Reconcile`'s loop body: name,
scope location, ownership tags, DNS name `strings.ToLower(name) + "-bastion"`
and a single IP configuration named `name + "-" + "bastionIP"` referencing
the resolved subnet and public-IP identifiers with static allocation. -/
def bastionHostPayload (s : Scope) (sp : BastionSpec) (subnet : Subnet)
    (publicIP : PublicIPAddress) : BastionHost :=
  { Name := some sp.Name
    Location := some s.Location
    Tags :=
      { ClusterName := s.ClusterName
        Lifecycle := ResourceLifecycleOwned
        Name := some sp.Name
        Role := some "Bastion" }
    PropertiesFormat := some
      { DNSName := some (sp.Name.toLower ++ "-bastion")
        IPConfigurations := some
          [ { Name := some (sp.Name ++ "-" ++ "bastionIP")
              PropertiesFormat := some
                { Subnet := some { ID := subnet.ID }
                  PublicIPAddress := some { ID := publicIP.ID }
                  PrivateIPAllocationMethod := IPAllocationMethod.Static } } ] } }

/-- `createBastionPublicIP`: one public-IP `CreateOrUpdate` call with the
fixed payload; returns the emitted event and the call's outcome unmodified.
`tr` is the global trace before the call, used to index the oracle. -/
def createBastionPublicIP (c : Clients) (s : Scope) (ipName : String)
    (tr : List CallEvent) : List CallEvent × Option AzureError :=
  ([CallEvent.publicIPsCreateOrUpdate s.ResourceGroup ipName (bastionPublicIPPayload s ipName)],
   c.publicIPsCreateOrUpdate (countPublicIPsCreateOrUpdate tr) s.ResourceGroup ipName
     (bastionPublicIPPayload s ipName))

/-- The bastion-host `CreateOrUpdate` step closing `Reconcile`'s loop body.
`d` is the trace delta already emitted for this spec, `tr` the full global
trace before this call. -/
def upsertBastionHost (c : Clients) (s : Scope) (sp : BastionSpec) (subnet : Subnet)
    (publicIP : PublicIPAddress) (d tr : List CallEvent) :
    List CallEvent × Option WrappedError :=
  let payload := bastionHostPayload s sp subnet publicIP
  let ev := CallEvent.bastionCreateOrUpdate s.ResourceGroup sp.Name payload
  match c.bastionCreateOrUpdate (countBastionCreateOrUpdate tr) s.ResourceGroup sp.Name payload with
  | some err => (d ++ [ev], some { msg := "cannot create bastion host", cause := err })
  | none => (d ++ [ev], none)

/-- One iteration of `Reconcile`'s loop: subnet lookup, public-IP lookup
with create-on-not-found and re-fetch, then bastion-host upsert.  Returns
the events emitted for this spec and `none` on success or the wrapped error
returned by the Go code.  `tr` is the global trace before this spec. -/
def reconcileOne (c : Clients) (s : Scope) (sp : BastionSpec) (tr : List CallEvent) :
    List CallEvent × Option WrappedError :=
  let e1 := CallEvent.subnetsGet s.ResourceGroup sp.VNetName sp.SubnetName
  match c.subnetsGet (countSubnetsGet tr) s.ResourceGroup sp.VNetName sp.SubnetName with
  | Except.error err => ([e1], some { msg := "failed to get subnet", cause := err })
  | Except.ok subnet =>
    let tr1 := tr ++ [e1]
    let e2 := CallEvent.publicIPsGet s.ResourceGroup sp.PublicIPName
    match c.publicIPsGet (countPublicIPsGet tr1) s.ResourceGroup sp.PublicIPName with
    | Except.error err =>
      if ResourceNotFound err then
        let tr2 := tr1 ++ [e2]
        match createBastionPublicIP c s sp.PublicIPName tr2 with
        | (dCreate, some iperr) =>
          ([e1, e2] ++ dCreate,
           some { msg := "failed to create bastion publicIP", cause := iperr })
        | (dCreate, none) =>
          let tr3 := tr2 ++ dCreate
          let e4 := CallEvent.publicIPsGet s.ResourceGroup sp.PublicIPName
          match c.publicIPsGet (countPublicIPsGet tr3) s.ResourceGroup sp.PublicIPName with
          | Except.error errPublicIP =>
            ([e1, e2] ++ dCreate ++ [e4],
             some { msg := "failed to get created publicIP", cause := errPublicIP })
          | Except.ok publicIP =>
            upsertBastionHost c s sp subnet publicIP ([e1, e2] ++ dCreate ++ [e4]) (tr3 ++ [e4])
      else
        ([e1, e2], some { msg := "failed to get existing publicIP", cause := err })
    | Except.ok publicIP =>
      upsertBastionHost c s sp subnet publicIP [e1, e2] (tr1 ++ [e2])

/-- `Reconcile`'s loop over the batch: first failure aborts, a successful
iteration appends its events to the global trace and continues. -/
def reconcileList (c : Clients) (s : Scope) :
    List BastionSpec → List CallEvent → List CallEvent × Option WrappedError
  | [], _ => ([], none)
  | sp :: rest, tr =>
    match reconcileOne c s sp tr with
    | (d, some e) => (d, some e)
    | (d, none) =>
      let r := reconcileList c s rest (tr ++ d)
      (d ++ r.1, r.2)

/-- `Reconcile`: process the scope's batch starting from the empty trace;
returns the full trace of client calls and `none` (Go `nil`) or the wrapped
error. -/
def Reconcile (c : Clients) (s : Scope) : List CallEvent × Option WrappedError :=
  reconcileList c s s.BastionSpecs []

/-- Outcome of one iteration of `Delete`'s loop body. -/
inductive DeleteStep where
  | next
  | doneNil
  | doneErr (e : WrappedError)
deriving DecidableEq

/-- One iteration of `Delete`'s loop: one bastion-host `Delete` call;
not-found makes the whole workflow return `nil`, any other error aborts with
a wrapped error naming the bastion and resource group. -/
def deleteOne (c : Clients) (s : Scope) (sp : BastionSpec) (tr : List CallEvent) :
    List CallEvent × DeleteStep :=
  let ev := CallEvent.bastionDelete s.ResourceGroup sp.Name
  match c.bastionDelete (countBastionDelete tr) s.ResourceGroup sp.Name with
  | some err =>
    if ResourceNotFound err then
      ([ev], DeleteStep.doneNil)
    else
      ([ev], DeleteStep.doneErr
        { msg := "failed to delete Bastion Host " ++ sp.Name ++ " in resource group " ++ s.ResourceGroup
          cause := err })
  | none => ([ev], DeleteStep.next)

/-- `Delete`'s loop over the batch. -/
def deleteList (c : Clients) (s : Scope) :
    List BastionSpec → List CallEvent → List CallEvent × Option WrappedError
  | [], _ => ([], none)
  | sp :: rest, tr =>
    match deleteOne c s sp tr with
    | (d, DeleteStep.doneNil) => (d, none)
    | (d, DeleteStep.doneErr e) => (d, some e)
    | (d, DeleteStep.next) =>
      let r := deleteList c s rest (tr ++ d)
      (d ++ r.1, r.2)

/-- `Delete`: process the scope's batch starting from the empty trace. -/
def Delete (c : Clients) (s : Scope) : List CallEvent × Option WrappedError :=
  deleteList c s s.BastionSpecs []

/-- All iterations of `Reconcile`'s loop succeed, threading the trace. -/
def reconcileAllOk (c : Clients) (s : Scope) :
    List BastionSpec → List CallEvent → Prop
  | [], _ => True
  | sp :: rest, tr =>
    (reconcileOne c s sp tr).2 = none ∧
      reconcileAllOk c s rest (tr ++ (reconcileOne c s sp tr).1)

/-- Concrete fixture: a first bastion spec. -/
def specW : BastionSpec :=
  { Name := "b1", VNetName := "vnet1", SubnetName := "snet1", PublicIPName := "pip1" }

/-- Concrete fixture: a second bastion spec, to show batches stop early. -/
def specW2 : BastionSpec :=
  { Name := "b2", VNetName := "vnet1", SubnetName := "snet2", PublicIPName := "pip2" }

/-- Concrete fixture: a scope with a two-spec batch. -/
def scopeW : Scope :=
  { ResourceGroup := "rg1", Location := "loc1", ClusterName := "cl1"
    BastionSpecs := [specW, specW2] }

/-- Concrete fixture: a scope with an empty batch. -/
def scopeEmpty : Scope :=
  { ResourceGroup := "rg1", Location := "loc1", ClusterName := "cl1", BastionSpecs := [] }

/-- Concrete fixture: the subnet returned by the fake subnet client. -/
def subnetW : Subnet := { ID := some "/subnets/snet1" }

/-- Concrete fixture: the public IP returned by the fake public-IP client. -/
def pipW : PublicIPAddress :=
  { Sku := none, Name := some "pip1", Location := none, ID := some "/pips/pip1"
    PropertiesFormat := none }

/-- Concrete fixture: clients for which every call succeeds. -/
def clientsOk : Clients :=
  { subnetsGet := fun _ _ _ _ => Except.ok subnetW
    publicIPsGet := fun _ _ _ => Except.ok pipW
    publicIPsCreateOrUpdate := fun _ _ _ _ => none
    bastionCreateOrUpdate := fun _ _ _ _ => none
    bastionDelete := fun _ _ _ => none }

/-- Concrete fixture: the subnet lookup fails with a generic error. -/
def clientsSubnetFail : Clients :=
  { clientsOk with subnetsGet := fun _ _ _ _ => Except.error (AzureError.other "boom") }

/-- Concrete fixture: the first public-IP lookup is not-found, later lookups
succeed (the public IP appears after creation). -/
def clientsPipMissing : Clients :=
  { clientsOk with
    publicIPsGet := fun n _ _ =>
      if n == 0 then Except.error (AzureError.notFound "404") else Except.ok pipW }

/-- Concrete fixture: public IP missing and its creation fails. -/
def clientsPipMissingCreateFail : Clients :=
  { clientsPipMissing with
    publicIPsCreateOrUpdate := fun _ _ _ _ => some (AzureError.other "createfail") }

/-- Concrete fixture: public IP missing and still missing on re-fetch. -/
def clientsPipMissingRefetchFail : Clients :=
  { clientsOk with publicIPsGet := fun _ _ _ => Except.error (AzureError.notFound "404") }

/-- Concrete fixture: the bastion-host upsert fails with a generic error. -/
def clientsBastionFail : Clients :=
  { clientsOk with bastionCreateOrUpdate := fun _ _ _ _ => some (AzureError.other "bfail") }

/-- Concrete fixture: the bastion-host delete reports not-found. -/
def clientsDeleteNotFound : Clients :=
  { clientsOk with bastionDelete := fun _ _ _ => some (AzureError.notFound "410") }

/-- Concrete fixture: the bastion-host delete fails with a generic error. -/
def clientsDeleteFail : Clients :=
  { clientsOk with bastionDelete := fun _ _ _ => some (AzureError.other "dfail") }

/-- Counting distributes over trace concatenation. -/
@[simp] theorem countSubnetsGet_append (a b : List CallEvent) :
    countSubnetsGet (a ++ b) = countSubnetsGet a + countSubnetsGet b := by
  simp [countSubnetsGet, List.countP_append]

/-- Counting distributes over trace concatenation. -/
@[simp] theorem countPublicIPsGet_append (a b : List CallEvent) :
    countPublicIPsGet (a ++ b) = countPublicIPsGet a + countPublicIPsGet b := by
  simp [countPublicIPsGet, List.countP_append]

/-- Counting distributes over trace concatenation. -/
@[simp] theorem countPublicIPsCreateOrUpdate_append (a b : List CallEvent) :
    countPublicIPsCreateOrUpdate (a ++ b) =
      countPublicIPsCreateOrUpdate a + countPublicIPsCreateOrUpdate b := by
  simp [countPublicIPsCreateOrUpdate, List.countP_append]

/-- Counting distributes over trace concatenation. -/
@[simp] theorem countBastionCreateOrUpdate_append (a b : List CallEvent) :
    countBastionCreateOrUpdate (a ++ b) =
      countBastionCreateOrUpdate a + countBastionCreateOrUpdate b := by
  simp [countBastionCreateOrUpdate, List.countP_append]

/-- Counting distributes over trace concatenation. -/
@[simp] theorem countBastionDelete_append (a b : List CallEvent) :
    countBastionDelete (a ++ b) = countBastionDelete a + countBastionDelete b := by
  simp [countBastionDelete, List.countP_append]

/-- Count of public-IP lookups in a one-event trace. -/
@[simp] theorem countPublicIPsGet_cons_subnetsGet (rg v sn : String) (tr : List CallEvent) :
    countPublicIPsGet (CallEvent.subnetsGet rg v sn :: tr) = countPublicIPsGet tr := by
  simp [countPublicIPsGet, List.countP_cons]

/-- Count of public-IP lookups in a one-event trace. -/
@[simp] theorem countPublicIPsGet_cons_get (rg n : String) (tr : List CallEvent) :
    countPublicIPsGet (CallEvent.publicIPsGet rg n :: tr) = countPublicIPsGet tr + 1 := by
  simp [countPublicIPsGet, List.countP_cons]

/-- Count of public-IP lookups in a one-event trace. -/
@[simp] theorem countPublicIPsGet_cons_create (rg n : String) (p : PublicIPAddress)
    (tr : List CallEvent) :
    countPublicIPsGet (CallEvent.publicIPsCreateOrUpdate rg n p :: tr) =
      countPublicIPsGet tr := by
  simp [countPublicIPsGet, List.countP_cons]

/-- Count of public-IP creations below a subnet-lookup event. -/
@[simp] theorem countPublicIPsCreateOrUpdate_cons_subnetsGet (rg v sn : String)
    (tr : List CallEvent) :
    countPublicIPsCreateOrUpdate (CallEvent.subnetsGet rg v sn :: tr) =
      countPublicIPsCreateOrUpdate tr := by
  simp [countPublicIPsCreateOrUpdate, List.countP_cons]

/-- Count of public-IP creations below a public-IP-lookup event. -/
@[simp] theorem countPublicIPsCreateOrUpdate_cons_get (rg n : String) (tr : List CallEvent) :
    countPublicIPsCreateOrUpdate (CallEvent.publicIPsGet rg n :: tr) =
      countPublicIPsCreateOrUpdate tr := by
  simp [countPublicIPsCreateOrUpdate, List.countP_cons]

/-- Count of public-IP creations below a public-IP-creation event. -/
@[simp] theorem countPublicIPsCreateOrUpdate_cons_create (rg n : String)
    (p : PublicIPAddress) (tr : List CallEvent) :
    countPublicIPsCreateOrUpdate (CallEvent.publicIPsCreateOrUpdate rg n p :: tr) =
      countPublicIPsCreateOrUpdate tr + 1 := by
  simp [countPublicIPsCreateOrUpdate, List.countP_cons]

/-- Count of public-IP creations below a bastion-upsert event. -/
@[simp] theorem countPublicIPsCreateOrUpdate_cons_bastion (rg n : String) (b : BastionHost)
    (tr : List CallEvent) :
    countPublicIPsCreateOrUpdate (CallEvent.bastionCreateOrUpdate rg n b :: tr) =
      countPublicIPsCreateOrUpdate tr := by
  simp [countPublicIPsCreateOrUpdate, List.countP_cons]

/-- Count of bastion upserts below a subnet-lookup event. -/
@[simp] theorem countBastionCreateOrUpdate_cons_subnetsGet (rg v sn : String)
    (tr : List CallEvent) :
    countBastionCreateOrUpdate (CallEvent.subnetsGet rg v sn :: tr) =
      countBastionCreateOrUpdate tr := by
  simp [countBastionCreateOrUpdate, List.countP_cons]

/-- Count of bastion upserts below a public-IP-lookup event. -/
@[simp] theorem countBastionCreateOrUpdate_cons_get (rg n : String) (tr : List CallEvent) :
    countBastionCreateOrUpdate (CallEvent.publicIPsGet rg n :: tr) =
      countBastionCreateOrUpdate tr := by
  simp [countBastionCreateOrUpdate, List.countP_cons]

/-- Count of bastion upserts below a public-IP-creation event. -/
@[simp] theorem countBastionCreateOrUpdate_cons_create (rg n : String)
    (p : PublicIPAddress) (tr : List CallEvent) :
    countBastionCreateOrUpdate (CallEvent.publicIPsCreateOrUpdate rg n p :: tr) =
      countBastionCreateOrUpdate tr := by
  simp [countBastionCreateOrUpdate, List.countP_cons]

/-- Empty traces contain no calls. -/
@[simp] theorem countPublicIPsGet_nil : countPublicIPsGet [] = 0 := rfl

/-- Empty traces contain no calls. -/
@[simp] theorem countPublicIPsCreateOrUpdate_nil : countPublicIPsCreateOrUpdate [] = 0 := rfl

/-- Empty traces contain no calls. -/
@[simp] theorem countBastionCreateOrUpdate_nil : countBastionCreateOrUpdate [] = 0 := rfl

/-- Appending the dash and the literal suffix is one concatenation. -/
theorem append_dash_bastionIP (a : String) : a ++ "-" ++ "bastionIP" = a ++ "-bastionIP" := by
  rw [String.append_assoc]; rfl

/-- C3: when the subnet resolves to identifier `S` and the public IP to
`P`, the loop body issues exactly the subnet lookup, the public-IP lookup
and one bastion-host upsert, and the upsert payload carries exactly one IP
configuration named `name ++ "-bastionIP"` with subnet reference `S`,
public-IP reference `P`, static private allocation, and the payload's DNS
name is `lowercase(name) ++ "-bastion"`. -/
theorem reconcile_bastion_payload (c : Clients) (s : Scope) (sp : BastionSpec)
    (tr : List CallEvent) (subnet : Subnet) (pip : PublicIPAddress) (S P : String)
    (hsub : c.subnetsGet (countSubnetsGet tr) s.ResourceGroup sp.VNetName sp.SubnetName =
      Except.ok subnet)
    (hS : subnet.ID = some S)
    (hget : c.publicIPsGet (countPublicIPsGet tr) s.ResourceGroup sp.PublicIPName =
      Except.ok pip)
    (hP : pip.ID = some P) :
    (reconcileOne c s sp tr).1 =
      [CallEvent.subnetsGet s.ResourceGroup sp.VNetName sp.SubnetName,
       CallEvent.publicIPsGet s.ResourceGroup sp.PublicIPName,
       CallEvent.bastionCreateOrUpdate s.ResourceGroup sp.Name
         (bastionHostPayload s sp subnet pip)] ∧
    (bastionHostPayload s sp subnet pip).PropertiesFormat = some
      { DNSName := some (sp.Name.toLower ++ "-bastion")
        IPConfigurations := some
          [ { Name := some (sp.Name ++ "-bastionIP")
              PropertiesFormat := some
                { Subnet := some { ID := some S }
                  PublicIPAddress := some { ID := some P }
                  PrivateIPAllocationMethod := IPAllocationMethod.Static } } ] } := by
  constructor
  · cases hbc : c.bastionCreateOrUpdate (countBastionCreateOrUpdate tr) s.ResourceGroup
      sp.Name (bastionHostPayload s sp subnet pip) <;>
      simp [reconcileOne, upsertBastionHost, hsub, hget, hbc]
  · simp [bastionHostPayload, hS, hP, append_dash_bastionIP]

/-- C3 witness: the all-succeeding concrete clients resolve the fixture
subnet and public IP, and the upsert payload has the stated shape. -/
theorem reconcile_bastion_payload_witness :
    clientsOk.subnetsGet (countSubnetsGet []) scopeW.ResourceGroup specW.VNetName
        specW.SubnetName = Except.ok subnetW ∧
    subnetW.ID = some "/subnets/snet1" ∧
    clientsOk.publicIPsGet (countPublicIPsGet []) scopeW.ResourceGroup specW.PublicIPName =
      Except.ok pipW ∧
    pipW.ID = some "/pips/pip1" ∧
    ((reconcileOne clientsOk scopeW specW []).1 =
      [CallEvent.subnetsGet scopeW.ResourceGroup specW.VNetName specW.SubnetName,
       CallEvent.publicIPsGet scopeW.ResourceGroup specW.PublicIPName,
       CallEvent.bastionCreateOrUpdate scopeW.ResourceGroup specW.Name
         (bastionHostPayload scopeW specW subnetW pipW)] ∧
     (bastionHostPayload scopeW specW subnetW pipW).PropertiesFormat = some
      { DNSName := some (specW.Name.toLower ++ "-bastion")
        IPConfigurations := some
          [ { Name := some (specW.Name ++ "-bastionIP")
              PropertiesFormat := some
                { Subnet := some { ID := some "/subnets/snet1" }
                  PublicIPAddress := some { ID := some "/pips/pip1" }
                  PrivateIPAllocationMethod := IPAllocationMethod.Static } } ] }) :=
  ⟨rfl, rfl, rfl, rfl,
   reconcile_bastion_payload clientsOk scopeW specW [] subnetW pipW
     "/subnets/snet1" "/pips/pip1" rfl rfl rfl rfl⟩

/-- C6: if the bastion-host upsert fails, the loop aborts the batch with a
wrapped error whose context is "cannot create bastion host" and whose cause
is the underlying client error; the error string starts with that phrase. -/
theorem reconcile_bastion_create_failure (c : Clients) (s : Scope) (sp : BastionSpec)
    (rest : List BastionSpec) (tr : List CallEvent) (subnet : Subnet)
    (pip : PublicIPAddress) (err : AzureError)
    (hsub : c.subnetsGet (countSubnetsGet tr) s.ResourceGroup sp.VNetName sp.SubnetName =
      Except.ok subnet)
    (hget : c.publicIPsGet (countPublicIPsGet tr) s.ResourceGroup sp.PublicIPName =
      Except.ok pip)
    (hbc : c.bastionCreateOrUpdate (countBastionCreateOrUpdate tr) s.ResourceGroup sp.Name
      (bastionHostPayload s sp subnet pip) = some err) :
    reconcileList c s (sp :: rest) tr =
      ([CallEvent.subnetsGet s.ResourceGroup sp.VNetName sp.SubnetName,
        CallEvent.publicIPsGet s.ResourceGroup sp.PublicIPName,
        CallEvent.bastionCreateOrUpdate s.ResourceGroup sp.Name
          (bastionHostPayload s sp subnet pip)],
       some { msg := "cannot create bastion host", cause := err }) ∧
    WrappedError.errorString { msg := "cannot create bastion host", cause := err } =
      "cannot create bastion host: " ++ err.message := by
  constructor
  · simp [reconcileList, reconcileOne, upsertBastionHost, hsub, hget, hbc]
  · rfl

/-- C6 witness: the failing concrete bastion-host upsert on a two-spec
batch. -/
theorem reconcile_bastion_create_failure_witness :
    clientsBastionFail.bastionCreateOrUpdate (countBastionCreateOrUpdate [])
        scopeW.ResourceGroup specW.Name (bastionHostPayload scopeW specW subnetW pipW) =
      some (AzureError.other "bfail") ∧
    reconcileList clientsBastionFail scopeW (specW :: [specW2]) [] =
      ([CallEvent.subnetsGet scopeW.ResourceGroup specW.VNetName specW.SubnetName,
        CallEvent.publicIPsGet scopeW.ResourceGroup specW.PublicIPName,
        CallEvent.bastionCreateOrUpdate scopeW.ResourceGroup specW.Name
          (bastionHostPayload scopeW specW subnetW pipW)],
       some { msg := "cannot create bastion host", cause := AzureError.other "bfail" }) :=
  ⟨rfl,
   (reconcile_bastion_create_failure clientsBastionFail scopeW specW [specW2] []
     subnetW pipW (AzureError.other "bfail") rfl rfl rfl).1⟩

/-- C1: when the public-IP lookup reports not-found, the loop body issues
exactly one public-IP create-or-update, whose payload has standard SKU,
IPv4, static allocation and DNS domain-name label `lowercase(name)`; when
the creation succeeds it is immediately followed by a re-fetch; a creation
failure aborts wrapped as "failed to create bastion publicIP", and a
re-fetch failure aborts wrapped as "failed to get created publicIP". -/
theorem reconcile_pip_notFound_create (c : Clients) (s : Scope) (sp : BastionSpec)
    (rest : List BastionSpec) (tr : List CallEvent) (subnet : Subnet) (err : AzureError)
    (hsub : c.subnetsGet (countSubnetsGet tr) s.ResourceGroup sp.VNetName sp.SubnetName =
      Except.ok subnet)
    (hget : c.publicIPsGet (countPublicIPsGet tr) s.ResourceGroup sp.PublicIPName =
      Except.error err)
    (hnf : ResourceNotFound err = true) :
    bastionPublicIPPayload s sp.PublicIPName =
      { Sku := some { Name := PublicIPAddressSkuName.Standard }
        Name := some sp.PublicIPName
        Location := some s.Location
        ID := none
        PropertiesFormat := some
          { PublicIPAddressVersion := IPVersion.IPv4
            PublicIPAllocationMethod := IPAllocationMethod.Static
            DNSSettings := some { DomainNameLabel := some sp.PublicIPName.toLower } } } ∧
    countPublicIPsCreateOrUpdate (reconcileOne c s sp tr).1 = 1 ∧
    (∀ iperr, c.publicIPsCreateOrUpdate (countPublicIPsCreateOrUpdate tr) s.ResourceGroup
        sp.PublicIPName (bastionPublicIPPayload s sp.PublicIPName) = some iperr →
      reconcileList c s (sp :: rest) tr =
        ([CallEvent.subnetsGet s.ResourceGroup sp.VNetName sp.SubnetName,
          CallEvent.publicIPsGet s.ResourceGroup sp.PublicIPName,
          CallEvent.publicIPsCreateOrUpdate s.ResourceGroup sp.PublicIPName
            (bastionPublicIPPayload s sp.PublicIPName)],
         some { msg := "failed to create bastion publicIP", cause := iperr })) ∧
    (c.publicIPsCreateOrUpdate (countPublicIPsCreateOrUpdate tr) s.ResourceGroup
        sp.PublicIPName (bastionPublicIPPayload s sp.PublicIPName) = none →
      List.take 4 (reconcileOne c s sp tr).1 =
        [CallEvent.subnetsGet s.ResourceGroup sp.VNetName sp.SubnetName,
         CallEvent.publicIPsGet s.ResourceGroup sp.PublicIPName,
         CallEvent.publicIPsCreateOrUpdate s.ResourceGroup sp.PublicIPName
           (bastionPublicIPPayload s sp.PublicIPName),
         CallEvent.publicIPsGet s.ResourceGroup sp.PublicIPName] ∧
      (∀ err2, c.publicIPsGet (countPublicIPsGet tr + 1) s.ResourceGroup sp.PublicIPName =
          Except.error err2 →
        reconcileList c s (sp :: rest) tr =
          ([CallEvent.subnetsGet s.ResourceGroup sp.VNetName sp.SubnetName,
            CallEvent.publicIPsGet s.ResourceGroup sp.PublicIPName,
            CallEvent.publicIPsCreateOrUpdate s.ResourceGroup sp.PublicIPName
              (bastionPublicIPPayload s sp.PublicIPName),
            CallEvent.publicIPsGet s.ResourceGroup sp.PublicIPName],
           some { msg := "failed to get created publicIP", cause := err2 }))) := by
  refine ⟨rfl, ?_, ?_, ?_⟩
  · cases hc : c.publicIPsCreateOrUpdate (countPublicIPsCreateOrUpdate tr) s.ResourceGroup
        sp.PublicIPName (bastionPublicIPPayload s sp.PublicIPName) with
    | some iperr =>
      simp [reconcileOne, createBastionPublicIP, hsub, hget, hnf, hc]
    | none =>
      cases hr : c.publicIPsGet (countPublicIPsGet tr + 1) s.ResourceGroup sp.PublicIPName with
      | error err2 =>
        simp [reconcileOne, createBastionPublicIP, hsub, hget, hnf, hc, hr]
      | ok pip =>
        cases hbc : c.bastionCreateOrUpdate (countBastionCreateOrUpdate tr) s.ResourceGroup
            sp.Name (bastionHostPayload s sp subnet pip) <;>
          simp [reconcileOne, createBastionPublicIP, upsertBastionHost, hsub, hget, hnf,
            hc, hr, hbc]
  · intro iperr hc
    simp [reconcileList, reconcileOne, createBastionPublicIP, hsub, hget, hnf, hc]
  · intro hc
    constructor
    · cases hr : c.publicIPsGet (countPublicIPsGet tr + 1) s.ResourceGroup sp.PublicIPName with
      | error err2 =>
        simp [reconcileOne, createBastionPublicIP, hsub, hget, hnf, hc, hr]
      | ok pip =>
        cases hbc : c.bastionCreateOrUpdate (countBastionCreateOrUpdate tr) s.ResourceGroup
            sp.Name (bastionHostPayload s sp subnet pip) <;>
          simp [reconcileOne, createBastionPublicIP, upsertBastionHost, hsub, hget, hnf,
            hc, hr, hbc]
    · intro err2 hr
      simp [reconcileList, reconcileOne, createBastionPublicIP, hsub, hget, hnf, hc, hr]

/-- C1 witness: concrete clients exercising all three outcomes: creation
succeeds (count of creations is one), creation fails, re-fetch fails. -/
theorem reconcile_pip_notFound_create_witness :
    clientsPipMissing.publicIPsGet (countPublicIPsGet []) scopeW.ResourceGroup
        specW.PublicIPName = Except.error (AzureError.notFound "404") ∧
    ResourceNotFound (AzureError.notFound "404") = true ∧
    countPublicIPsCreateOrUpdate (reconcileOne clientsPipMissing scopeW specW []).1 = 1 ∧
    reconcileList clientsPipMissingCreateFail scopeW (specW :: [specW2]) [] =
      ([CallEvent.subnetsGet scopeW.ResourceGroup specW.VNetName specW.SubnetName,
        CallEvent.publicIPsGet scopeW.ResourceGroup specW.PublicIPName,
        CallEvent.publicIPsCreateOrUpdate scopeW.ResourceGroup specW.PublicIPName
          (bastionPublicIPPayload scopeW specW.PublicIPName)],
       some { msg := "failed to create bastion publicIP"
              cause := AzureError.other "createfail" }) ∧
    reconcileList clientsPipMissingRefetchFail scopeW (specW :: [specW2]) [] =
      ([CallEvent.subnetsGet scopeW.ResourceGroup specW.VNetName specW.SubnetName,
        CallEvent.publicIPsGet scopeW.ResourceGroup specW.PublicIPName,
        CallEvent.publicIPsCreateOrUpdate scopeW.ResourceGroup specW.PublicIPName
          (bastionPublicIPPayload scopeW specW.PublicIPName),
        CallEvent.publicIPsGet scopeW.ResourceGroup specW.PublicIPName],
       some { msg := "failed to get created publicIP"
              cause := AzureError.notFound "404" }) :=
  ⟨rfl, rfl,
   (reconcile_pip_notFound_create clientsPipMissing scopeW specW [specW2] [] subnetW
     (AzureError.notFound "404") rfl rfl rfl).2.1,
   (reconcile_pip_notFound_create clientsPipMissingCreateFail scopeW specW [specW2] []
     subnetW (AzureError.notFound "404") rfl rfl rfl).2.2.1
     (AzureError.other "createfail") rfl,
   ((reconcile_pip_notFound_create clientsPipMissingRefetchFail scopeW specW [specW2] []
     subnetW (AzureError.notFound "404") rfl rfl rfl).2.2.2 rfl).2
     (AzureError.notFound "404") rfl⟩

/-- C5: the loop body never issues a public-IP create-or-update when the
public-IP lookup succeeds, and any issued creation proves the lookup failed
with a not-found classification. -/
theorem reconcile_pip_exists_no_create (c : Clients) (s : Scope) (sp : BastionSpec)
    (tr : List CallEvent) :
    (∀ pip, c.publicIPsGet (countPublicIPsGet tr) s.ResourceGroup sp.PublicIPName =
        Except.ok pip →
      countPublicIPsCreateOrUpdate (reconcileOne c s sp tr).1 = 0) ∧
    (0 < countPublicIPsCreateOrUpdate (reconcileOne c s sp tr).1 →
      ∃ err, c.publicIPsGet (countPublicIPsGet tr) s.ResourceGroup sp.PublicIPName =
          Except.error err ∧ ResourceNotFound err = true) := by
  constructor
  · intro pip hget
    cases hsub : c.subnetsGet (countSubnetsGet tr) s.ResourceGroup sp.VNetName
        sp.SubnetName with
    | error err => simp [reconcileOne, hsub]
    | ok subnet =>
      cases hbc : c.bastionCreateOrUpdate (countBastionCreateOrUpdate tr) s.ResourceGroup
          sp.Name (bastionHostPayload s sp subnet pip) <;>
        simp [reconcileOne, upsertBastionHost, hsub, hget, hbc]
  · intro hpos
    cases hsub : c.subnetsGet (countSubnetsGet tr) s.ResourceGroup sp.VNetName
        sp.SubnetName with
    | error err =>
      rw [reconcileOne] at hpos
      simp [hsub] at hpos
    | ok subnet =>
      cases hget : c.publicIPsGet (countPublicIPsGet tr) s.ResourceGroup sp.PublicIPName with
      | ok pip =>
        cases hbc : c.bastionCreateOrUpdate (countBastionCreateOrUpdate tr) s.ResourceGroup
            sp.Name (bastionHostPayload s sp subnet pip) <;>
          [skip; skip] <;>
          · rw [reconcileOne] at hpos
            simp [upsertBastionHost, hsub, hget, hbc] at hpos
      | error err =>
        cases hnf : ResourceNotFound err with
        | true => exact ⟨err, hget ▸ rfl, hnf⟩
        | false =>
          rw [reconcileOne] at hpos
          simp [hsub, hget, hnf] at hpos

/-- C5 witness: with the all-succeeding clients no creation is issued; with
the missing-public-IP clients the issued creation points back at a
not-found lookup. -/
theorem reconcile_pip_exists_no_create_witness :
    clientsOk.publicIPsGet (countPublicIPsGet []) scopeW.ResourceGroup specW.PublicIPName =
      Except.ok pipW ∧
    countPublicIPsCreateOrUpdate (reconcileOne clientsOk scopeW specW []).1 = 0 ∧
    0 < countPublicIPsCreateOrUpdate (reconcileOne clientsPipMissing scopeW specW []).1 ∧
    (∃ err, clientsPipMissing.publicIPsGet (countPublicIPsGet []) scopeW.ResourceGroup
        specW.PublicIPName = Except.error err ∧ ResourceNotFound err = true) :=
  ⟨rfl,
   (reconcile_pip_exists_no_create clientsOk scopeW specW []).1 pipW rfl,
   by decide,
   (reconcile_pip_exists_no_create clientsPipMissing scopeW specW []).2 (by decide)⟩

/-- C4: for every spec whose subnet lookup returns any error, the
`Reconcile` loop wraps it as "failed to get subnet", issues no public-IP or
bastion-host call for that spec (the trace gains only the one subnet
lookup), and aborts the rest of the batch. -/
theorem reconcile_subnet_failure (c : Clients) (s : Scope) (sp : BastionSpec)
    (rest : List BastionSpec) (tr : List CallEvent) (err : AzureError)
    (hsub : c.subnetsGet (countSubnetsGet tr) s.ResourceGroup sp.VNetName sp.SubnetName =
      Except.error err) :
    reconcileList c s (sp :: rest) tr =
      ([CallEvent.subnetsGet s.ResourceGroup sp.VNetName sp.SubnetName],
       some { msg := "failed to get subnet", cause := err }) := by
  simp [reconcileList, reconcileOne, hsub]

/-- C4 witness: the generic subnet failure on a concrete two-spec batch. -/
theorem reconcile_subnet_failure_witness :
    clientsSubnetFail.subnetsGet (countSubnetsGet []) scopeW.ResourceGroup
        specW.VNetName specW.SubnetName = Except.error (AzureError.other "boom") ∧
    reconcileList clientsSubnetFail scopeW (specW :: [specW2]) [] =
      ([CallEvent.subnetsGet scopeW.ResourceGroup specW.VNetName specW.SubnetName],
       some { msg := "failed to get subnet", cause := AzureError.other "boom" }) :=
  ⟨rfl, reconcile_subnet_failure clientsSubnetFail scopeW specW [specW2] []
    (AzureError.other "boom") rfl⟩

/-- C2: if a bastion-host delete reports not-found, the `Delete` loop
returns `nil` immediately: the trace gains only that single delete call,
whatever specs remain in the batch. -/
theorem delete_notFound_stops (c : Clients) (s : Scope) (sp : BastionSpec)
    (rest : List BastionSpec) (tr : List CallEvent) (err : AzureError)
    (hdel : c.bastionDelete (countBastionDelete tr) s.ResourceGroup sp.Name = some err)
    (hnf : ResourceNotFound err = true) :
    deleteList c s (sp :: rest) tr =
      ([CallEvent.bastionDelete s.ResourceGroup sp.Name], none) := by
  simp [deleteList, deleteOne, hdel, hnf]

/-- C2 witness: not-found delete on a concrete two-spec batch. -/
theorem delete_notFound_stops_witness :
    clientsDeleteNotFound.bastionDelete (countBastionDelete []) scopeW.ResourceGroup
        specW.Name = some (AzureError.notFound "410") ∧
    ResourceNotFound (AzureError.notFound "410") = true ∧
    deleteList clientsDeleteNotFound scopeW (specW :: [specW2]) [] =
      ([CallEvent.bastionDelete scopeW.ResourceGroup specW.Name], none) :=
  ⟨rfl, rfl, delete_notFound_stops clientsDeleteNotFound scopeW specW [specW2] []
    (AzureError.notFound "410") rfl rfl⟩

/-- C7: if a bastion-host delete fails with an error that is not not-found,
the `Delete` loop aborts immediately with a wrapped error whose message
names the bastion and the resource group. -/
theorem delete_error_aborts (c : Clients) (s : Scope) (sp : BastionSpec)
    (rest : List BastionSpec) (tr : List CallEvent) (err : AzureError)
    (hdel : c.bastionDelete (countBastionDelete tr) s.ResourceGroup sp.Name = some err)
    (hnf : ResourceNotFound err = false) :
    deleteList c s (sp :: rest) tr =
      ([CallEvent.bastionDelete s.ResourceGroup sp.Name],
       some { msg := "failed to delete Bastion Host " ++ sp.Name ++
                " in resource group " ++ s.ResourceGroup
              cause := err }) := by
  simp [deleteList, deleteOne, hdel, hnf]

/-- C7 witness: generic delete failure on a concrete two-spec batch. -/
theorem delete_error_aborts_witness :
    clientsDeleteFail.bastionDelete (countBastionDelete []) scopeW.ResourceGroup
        specW.Name = some (AzureError.other "dfail") ∧
    ResourceNotFound (AzureError.other "dfail") = false ∧
    deleteList clientsDeleteFail scopeW (specW :: [specW2]) [] =
      ([CallEvent.bastionDelete scopeW.ResourceGroup specW.Name],
       some { msg := "failed to delete Bastion Host " ++ specW.Name ++
                " in resource group " ++ scopeW.ResourceGroup
              cause := AzureError.other "dfail" }) :=
  ⟨rfl, rfl, delete_error_aborts clientsDeleteFail scopeW specW [specW2] []
    (AzureError.other "dfail") rfl rfl⟩

/-- Every event the `Delete` loop emits is a bastion-host delete call. -/
theorem deleteList_events_bastionDelete (c : Clients) (s : Scope) :
    ∀ (specs : List BastionSpec) (tr : List CallEvent),
      ((deleteList c s specs tr).1.all isBastionDeleteEvent) = true := by
  intro specs
  induction specs with
  | nil => intro tr; rfl
  | cons sp rest ih =>
    intro tr
    simp only [deleteList, deleteOne]
    cases hd : c.bastionDelete (countBastionDelete tr) s.ResourceGroup sp.Name with
    | none => simp [ih, isBastionDeleteEvent]
    | some err => cases hnf : ResourceNotFound err <;> simp [hnf, isBastionDeleteEvent]

/-- C9: the `Delete` workflow only ever invokes the bastion-host client's
delete operation; its trace never contains a subnet, public-IP or
bastion-host create call, so a public IP created by `Reconcile` is never
removed by `Delete`. -/
theorem delete_only_bastion_calls (c : Clients) (s : Scope) :
    ((Delete c s).1.all isBastionDeleteEvent) = true :=
  deleteList_events_bastionDelete c s s.BastionSpecs []

/-- A failing prefix of the batch determines the whole run: the loop stops
at the first failure and the remaining specs contribute nothing. -/
theorem reconcileList_append_fail (c : Clients) (s : Scope) (post : List BastionSpec) :
    ∀ (pre : List BastionSpec) (tr d : List CallEvent) (e : WrappedError),
      reconcileList c s pre tr = (d, some e) →
      reconcileList c s (pre ++ post) tr = (d, some e) := by
  intro pre
  induction pre with
  | nil =>
    intro tr d e h
    simp [reconcileList] at h
  | cons sp0 rest ih =>
    intro tr d e h
    rw [List.cons_append]
    rw [reconcileList] at h ⊢
    cases h1 : reconcileOne c s sp0 tr with
    | mk d0 r0 =>
      rw [h1] at h
      cases r0 with
      | some e0 =>
        simpa using h
      | none =>
        simp only at h ⊢
        rw [Prod.mk.injEq] at h
        obtain ⟨hd, he⟩ := h
        have hre : reconcileList c s rest (tr ++ d0) =
            ((reconcileList c s rest (tr ++ d0)).1, some e) := by
          rw [← he]
        rw [ih (tr ++ d0) (reconcileList c s rest (tr ++ d0)).1 e hre]
        simp [hd]

/-- A succeeding prefix of the batch composes: the loop then processes the
remaining specs on the extended trace and concatenates the events. -/
theorem reconcileList_append_ok (c : Clients) (s : Scope) (post : List BastionSpec) :
    ∀ (pre : List BastionSpec) (tr d : List CallEvent),
      reconcileList c s pre tr = (d, none) →
      reconcileList c s (pre ++ post) tr =
        (d ++ (reconcileList c s post (tr ++ d)).1,
         (reconcileList c s post (tr ++ d)).2) := by
  intro pre
  induction pre with
  | nil =>
    intro tr d h
    simp [reconcileList] at h
    simp [h]
  | cons sp0 rest ih =>
    intro tr d h
    rw [List.cons_append]
    rw [reconcileList] at h ⊢
    cases h1 : reconcileOne c s sp0 tr with
    | mk d0 r0 =>
      rw [h1] at h
      cases r0 with
      | some e0 =>
        simp at h
      | none =>
        simp only at h ⊢
        rw [Prod.mk.injEq] at h
        obtain ⟨hd, hrr⟩ := h
        have hre : reconcileList c s rest (tr ++ d0) =
            ((reconcileList c s rest (tr ++ d0)).1, none) := by
          rw [← hrr]
        rw [ih (tr ++ d0) (reconcileList c s rest (tr ++ d0)).1 hre]
        simp [← hd, List.append_assoc]

/-- The loop returns `nil` exactly when every iteration succeeds. -/
theorem reconcileList_none_iff_allOk (c : Clients) (s : Scope) :
    ∀ (specs : List BastionSpec) (tr : List CallEvent),
      (reconcileList c s specs tr).2 = none ↔ reconcileAllOk c s specs tr := by
  intro specs
  induction specs with
  | nil => intro tr; simp [reconcileList, reconcileAllOk]
  | cons sp rest ih =>
    intro tr
    rw [reconcileList, reconcileAllOk]
    cases h1 : reconcileOne c s sp tr with
    | mk d r =>
      cases r with
      | some e => simp [h1, ih]
      | none => simp [h1, ih]

/-- C8: the batch is processed in order with first-failure short-circuit: a
failure in a prefix fixes the whole run's trace and error (no call is made
for the remaining specs), a succeeding prefix composes with the rest of the
batch on the extended trace, and `Reconcile` returns `nil` exactly when
every spec's iteration succeeds. -/
theorem reconcile_batch_order (c : Clients) (s : Scope) (tr : List CallEvent)
    (pre : List BastionSpec) (sp : BastionSpec) (post : List BastionSpec) :
    (∀ d e, reconcileList c s pre tr = (d, some e) →
      reconcileList c s (pre ++ sp :: post) tr = (d, some e)) ∧
    (∀ d, reconcileList c s pre tr = (d, none) →
      reconcileList c s (pre ++ sp :: post) tr =
        (d ++ (reconcileList c s (sp :: post) (tr ++ d)).1,
         (reconcileList c s (sp :: post) (tr ++ d)).2)) ∧
    ((Reconcile c s).2 = none ↔ reconcileAllOk c s s.BastionSpecs []) :=
  ⟨fun d e h => reconcileList_append_fail c s (sp :: post) pre tr d e h,
   fun d h => reconcileList_append_ok c s (sp :: post) pre tr d h,
   reconcileList_none_iff_allOk c s s.BastionSpecs []⟩

/-- C8 witness: a concrete failing one-spec prefix short-circuits a second
spec, applied through the ordering theorem. -/
theorem reconcile_batch_order_witness :
    reconcileList clientsSubnetFail scopeW [specW] [] =
      ([CallEvent.subnetsGet scopeW.ResourceGroup specW.VNetName specW.SubnetName],
       some { msg := "failed to get subnet", cause := AzureError.other "boom" }) ∧
    reconcileList clientsSubnetFail scopeW ([specW] ++ specW2 :: []) [] =
      ([CallEvent.subnetsGet scopeW.ResourceGroup specW.VNetName specW.SubnetName],
       some { msg := "failed to get subnet", cause := AzureError.other "boom" }) :=
  ⟨rfl,
   (reconcile_batch_order clientsSubnetFail scopeW [] [specW] specW2 []).1
     [CallEvent.subnetsGet scopeW.ResourceGroup specW.VNetName specW.SubnetName]
     { msg := "failed to get subnet", cause := AzureError.other "boom" } rfl⟩

/-- C10: on an empty batch both `Reconcile` and `Delete` return `nil` with
an empty trace (no client call at all). -/
theorem empty_batch_noop (c : Clients) (s : Scope) (h : s.BastionSpecs = []) :
    Reconcile c s = ([], none) ∧ Delete c s = ([], none) := by
  simp [Reconcile, Delete, h, reconcileList, deleteList]

/-- C10 witness: empty batch with the all-succeeding concrete clients. -/
theorem empty_batch_noop_witness :
    scopeEmpty.BastionSpecs = [] ∧
    Reconcile clientsOk scopeEmpty = ([], none) ∧
    Delete clientsOk scopeEmpty = ([], none) := by
  refine ⟨rfl, ?_, ?_⟩
  · exact (empty_batch_noop clientsOk scopeEmpty rfl).1
  · exact (empty_batch_noop clientsOk scopeEmpty rfl).2

end BastionHosts
